import Mathlib

/-!
Verification of the bumbootools repository (scraper core + dashboard UI)
against its natural-language specification.

Source-backed embeddings:
* `tissue_prices` schema — from `bumboo-scraper/sql/schema.sql`.
* `filteredPriceData` — from `bumboo-ui/components/product-details.tsx`.
* `loadHistory` statistics — from `bumboo-ui/app/page.tsx`.

The Python modules of the scraper (`scrapers/runner.py`, `scrapers/storage.py`,
`scrapers/registry.py`) are not part of the provided sources; the runner,
registry and sink-router definitions below are modelled from the spec
wording and say so in their doc comments.
-/

/-! ## SQL schema embedding (from sql/schema.sql) -/

/-- SQL column types appearing in `sql/schema.sql`. -/
inductive SqlType where
  | uuid
  | varchar (maxLen : Nat)
  | text
  | numeric
  | integer
  | jsonb
  | timestamptz
deriving DecidableEq, Repr

/-- One column of a SQL table: name, type, nullability, default expression. -/
structure ColumnSpec where
  name : String
  ty : SqlType
  nullable : Bool
  dflt : Option String
deriving DecidableEq, Repr

/-- The `public.tissue_prices` table exactly as declared in
`bumboo-scraper/sql/schema.sql` lines 4-17: column order, types,
nullability and defaults transcribed from the DDL. -/
def tissue_prices : List ColumnSpec :=
  [ ⟨"id", .uuid, false, some "gen_random_uuid()"⟩,
    ⟨"brand", .varchar 200, false, none⟩,
    ⟨"description", .text, false, none⟩,
    ⟨"site", .varchar 200, false, none⟩,
    ⟨"size", .varchar 200, true, none⟩,
    ⟨"ply", .varchar 200, true, none⟩,
    ⟨"price", .numeric, true, none⟩,
    ⟨"total_reviews", .integer, true, none⟩,
    ⟨"total_rating", .numeric, true, none⟩,
    ⟨"source_url", .text, false, none⟩,
    ⟨"metadata", .jsonb, true, none⟩,
    ⟨"collected_at", .timestamptz, false, some "now()"⟩ ]

/-- A column is a string capped at 200 characters. -/
def isCappedString (t : SqlType) : Bool :=
  match t with
  | .varchar n => n ≤ 200
  | _ => false

/-- Written from the remote-schema sentence of the spec, not from the DDL:
checks that a column list has exactly the observation-facing shape the
spec promises — brand/site capped strings non-null, description and
source_url non-null text, size/ply nullable capped strings, price and
total_rating nullable numeric, total_reviews nullable integer, metadata
an open key/value document, collected_at a timestamp with a write-time
default. -/
def specRemoteSchemaOk (cols : List ColumnSpec) : Bool :=
  match cols with
  | [brand, description, site, size, ply, price, total_reviews,
     total_rating, source_url, metadata, collected_at] =>
    brand.name == "brand" && isCappedString brand.ty && !brand.nullable &&
    description.name == "description" && description.ty == .text &&
      !description.nullable &&
    site.name == "site" && isCappedString site.ty && !site.nullable &&
    size.name == "size" && isCappedString size.ty && size.nullable &&
    ply.name == "ply" && isCappedString ply.ty && ply.nullable &&
    price.name == "price" && price.ty == .numeric && price.nullable &&
    total_reviews.name == "total_reviews" && total_reviews.ty == .integer &&
      total_reviews.nullable &&
    total_rating.name == "total_rating" && total_rating.ty == .numeric &&
      total_rating.nullable &&
    source_url.name == "source_url" && source_url.ty == .text &&
      !source_url.nullable &&
    metadata.name == "metadata" && metadata.ty == .jsonb &&
    collected_at.name == "collected_at" && collected_at.ty == .timestamptz &&
      collected_at.dflt == some "now()"
  | _ => false

/-! ## Data model (spec section 3) -/

/-- Modelled from the spec: the canonical `ProductObservation` record
(spec section 3); the dataclass in `scrapers/models.py` is not among the
provided sources.  Prices and ratings are modelled as rationals,
review counts as integers, `collectedAt` as a timestamp ordinal. -/
structure ProductObservation where
  brand : String
  description : String
  site : String
  size : Option String
  ply : Option String
  price : Option ℚ
  totalReviews : Option Int
  totalRating : Option ℚ
  sourceUrl : String
  metadata : List (String × String)
  collectedAt : Nat
deriving DecidableEq, Repr

/-- A row of the remote `tissue_prices` table in value form, one field
per observation-facing column of the DDL (the `id` column is
sink-assigned and not part of the encoded payload). -/
structure TissueRow where
  brand : String
  description : String
  site : String
  size : Option String
  ply : Option String
  price : Option ℚ
  total_reviews : Option Int
  total_rating : Option ℚ
  source_url : String
  metadata : List (String × String)
  collected_at : Nat
deriving DecidableEq, Repr

/-- Modelled from the spec: encoding a `ProductObservation` into the
row shape of the remote schema (`scrapers/storage.py` is not among the
provided sources); each observation field maps to its column. -/
def encodeRow (o : ProductObservation) : TissueRow :=
  { brand := o.brand
    description := o.description
    site := o.site
    size := o.size
    ply := o.ply
    price := o.price
    total_reviews := o.totalReviews
    total_rating := o.totalRating
    source_url := o.sourceUrl
    metadata := o.metadata
    collected_at := o.collectedAt }

/-- Modelled from the spec: decoding a remote row back into a
`ProductObservation` (the read path of the serialization contract). -/
def decodeRow (r : TissueRow) : ProductObservation :=
  { brand := r.brand
    description := r.description
    site := r.site
    size := r.size
    ply := r.ply
    price := r.price
    totalReviews := r.total_reviews
    totalRating := r.total_rating
    sourceUrl := r.source_url
    metadata := r.metadata
    collectedAt := r.collected_at }

/-! ## Error taxonomy and extractor outcomes (spec sections 4.2, 7) -/

/-- Modelled from the spec: the error taxonomy of spec section 7 for
job-level failures. -/
inductive ErrorKind where
  | NetworkError
  | ParseError
  | ValidationError
  | Timeout
deriving DecidableEq, Repr

/-- Modelled from the spec: a job outcome is `Success(observations)` or
`Failed(errorKind)` (spec section 4.4). -/
inductive JobOutcome where
  | success (obs : List ProductObservation)
  | failed (kind : ErrorKind)
deriving DecidableEq, Repr

/-- Modelled from the spec: a bound unit of work; its extractor is
represented by the sequence of results each successive fetch attempt
would produce (attempt index → result). -/
structure Job where
  id : String
  fetch : Nat → Except ErrorKind (List ProductObservation)

/-! ## Runner retry loop (spec section 4.4) -/

/-- Modelled from the spec: the bounded retry budget for transient
`NetworkError` ("retried a bounded number of times"). -/
def maxRetries : Nat := 3

/-- Modelled from the spec: the backoff delay before retry attempt `k`,
an increasing schedule ("increasing backoff"). -/
def backoffDelay (k : Nat) : Nat := 2 ^ k

/-- Modelled from the spec: the per-job attempt loop of the Runner
(spec section 4.4).  Invokes the extractor; a `NetworkError` is retried
while retry budget remains, `ParseError` and `ValidationError` fail the
job on first occurrence.  Returns the outcome together with the number
of fetch attempts performed. -/
def runAttempts (fetch : Nat → Except ErrorKind (List ProductObservation)) :
    Nat → Nat → JobOutcome × Nat
  | attempt, fuel =>
    match fetch attempt with
    | .ok obs => (.success obs, attempt + 1)
    | .error .NetworkError =>
      match fuel with
      | 0 => (.failed .NetworkError, attempt + 1)
      | f + 1 => runAttempts fetch (attempt + 1) f
    | .error e => (.failed e, attempt + 1)

/-- Modelled from the spec: run one job with the full retry budget. -/
def runJob (j : Job) : JobOutcome × Nat :=
  runAttempts j.fetch 0 maxRetries

/-- The report entry a job produces: its id and its outcome. -/
def jobEntry (j : Job) : String × JobOutcome :=
  (j.id, (runJob j).1)

/-- The observations a job contributes to the final batch: its
observations on success, nothing on failure. -/
def jobObs (j : Job) : List ProductObservation :=
  match (runJob j).1 with
  | .success obs => obs
  | .failed _ => []

/-! ## Runner orchestration (spec section 4.4) -/

/-- Modelled from the spec: the accumulating state of one run — the
per-job report entries so far and the observation batch so far. -/
structure RunState where
  report : List (String × JobOutcome)
  batch : List ProductObservation
deriving DecidableEq, Repr

/-- Modelled from the spec: process one job — record its outcome in the
report and, on success, append its observations to the batch.  A failed
job contributes an entry but no observations; it never aborts the fold. -/
def runStep (st : RunState) (j : Job) : RunState :=
  match (runJob j).1 with
  | .success obs =>
    { report := st.report ++ [(j.id, JobOutcome.success obs)]
      batch := st.batch ++ obs }
  | .failed k =>
    { report := st.report ++ [(j.id, JobOutcome.failed k)]
      batch := st.batch }

/-- Modelled from the spec: execute every job of the run sequentially,
starting from the empty report and empty batch. -/
def runAll (jobs : List Job) : RunState :=
  jobs.foldl runStep ⟨[], []⟩

/-! ## Sinks and routing (spec sections 4.5, 6) -/

/-- Modelled from the spec: the run flags and remote-connection facts
the router consults — whether credentials are configured, the
`--skip-supabase` flag, the `--local-dump` flag, and whether the remote
write would fail at runtime (`SinkWriteFailed` injection). -/
structure SinkConfig where
  hasCredentials : Bool
  skipRemote : Bool
  localDump : Bool
  remoteWriteFails : Bool
deriving DecidableEq, Repr

/-- Modelled from the spec: where the batch ended up — the content the
remote store received this run (if any), the content of the local
document (if any), and the warnings recorded in the report. -/
structure SinkResult where
  remote : Option (List ProductObservation)
  localDoc : Option (List ProductObservation)
  warnings : List String
deriving DecidableEq, Repr

/-- Modelled from the spec: the routing policy of spec section 4.5.
RemoteSink is used when credentials are configured and remote writing is
not disabled; if its write fails at runtime the entire batch falls back
to LocalSink and a warning is recorded; the local-dump flag always adds
a local document; without a usable remote the batch goes to LocalSink. -/
def route (cfg : SinkConfig) (batch : List ProductObservation) : SinkResult :=
  if cfg.hasCredentials && !cfg.skipRemote then
    if cfg.remoteWriteFails then
      { remote := none
        localDoc := some batch
        warnings := ["SinkWriteFailed"] }
    else
      { remote := some batch
        localDoc := if cfg.localDump then some batch else none
        warnings := [] }
  else
    { remote := none, localDoc := some batch, warnings := [] }

/-- Modelled from the spec: a full run report — per-job entries plus the
sink write outcome (spec section 4.4: persistence is one terminal step). -/
structure RunReport where
  entries : List (String × JobOutcome)
  sink : SinkResult
deriving DecidableEq, Repr

/-- Modelled from the spec: one complete run — execute all jobs, then
hand the concatenated batch to the sink layer exactly once. -/
def fullRun (jobs : List Job) (cfg : SinkConfig) : RunReport :=
  let st := runAll jobs
  { entries := st.report, sink := route cfg st.batch }

/-! ## Remote store append semantics (spec sections 3, 4.5, 9) -/

/-- The natural key of an observation: (brand, description, site). -/
def natKey (o : ProductObservation) : String × String × String :=
  (o.brand, o.description, o.site)

/-- Modelled from the spec: the RemoteSink write appends each
observation of the batch as a new row after the existing rows
("appends each observation as a new row", append-only time-series
semantics; `scrapers/storage.py` is not among the provided sources, and
`sql/schema.sql` declares no unique constraint on the natural key). -/
def remoteWrite (store : List ProductObservation)
    (batch : List ProductObservation) : List ProductObservation :=
  store ++ batch

/-! ## Job registry (spec section 4.3) -/

/-- Modelled from the spec: `JobRegistry.build` — resolve every
requested identifier against the registered jobs; if any identifier is
unregistered, fail with `UnknownJob` listing every unresolved identifier
(exhaustive validation); otherwise produce the job sequence in request
order. -/
def build (reg : List (String × Job)) (requested : List String) :
    Except (List String) (List Job) :=
  let missing := requested.filter (fun i => !(reg.any (fun p => p.1 == i)))
  if missing.isEmpty then
    .ok (requested.filterMap (fun i => (reg.find? (fun p => p.1 == i)).map (·.2)))
  else
    .error missing

/-- Modelled from the spec: a run requested by identifier list — build
the job set first; an `UnknownJob` error aborts before any fetch, so no
report is produced at all. -/
def runRequest (reg : List (String × Job)) (requested : List String)
    (cfg : SinkConfig) : Except (List String) RunReport :=
  match build reg requested with
  | .error ids => .error ids
  | .ok js => .ok (fullRun js cfg)

/-! ## Dashboard embeddings (from bumboo-ui sources) -/

/-- One price-history row of the dashboard, from
`bumboo-ui/lib/types.ts` (`PriceHistoryItem`): per-site prices are
nullable numbers, modelled as `Option ℚ`. -/
structure PriceHistoryItem where
  date : String
  fairprice : Option ℚ
  coldStorage : Option ℚ
  redmart : Option ℚ
  reviews : Option String
deriving DecidableEq, Repr

/-- The date-range selector of `ProductDetails`
(`bumboo-ui/components/product-details.tsx` line 16). -/
inductive DateRange where
  | month
  | lastMonth
  | all
deriving DecidableEq, Repr

/-- From `bumboo-ui/components/product-details.tsx` lines 18-22: the
`filteredPriceData` computation — `priceHistory.filter` with a predicate
that returns `true` in the `month` branch, the `lastMonth` branch and
the fall-through branch. -/
def filteredPriceData (dateRange : DateRange)
    (priceHistory : List PriceHistoryItem) : List PriceHistoryItem :=
  priceHistory.filter (fun _item =>
    match dateRange with
    | .month => true
    | .lastMonth => true
    | .all => true)

/-- The dashboard `Product` fields that `loadHistory` touches, from
`bumboo-ui/lib/types.ts` (`Product`). -/
structure Product where
  id : String
  priceHistory : List PriceHistoryItem
  highestPrice : ℚ
  avgPrice : ℚ
  lowestPrice : ℚ
deriving DecidableEq, Repr

/-- From `bumboo-ui/app/page.tsx` line 81: the retained history keeps
exactly the rows in which at least one of the three site prices is
non-null. -/
def retainedHistory (data : List PriceHistoryItem) : List PriceHistoryItem :=
  data.filter (fun h =>
    h.fairprice.isSome || h.coldStorage.isSome || h.redmart.isSome)

/-- From `bumboo-ui/app/page.tsx` line 83: the non-null site prices of
one row, in site order fairprice, coldStorage, redmart. -/
def siteValues (h : PriceHistoryItem) : List ℚ :=
  [h.fairprice, h.coldStorage, h.redmart].filterMap id

/-- From `bumboo-ui/app/page.tsx` line 83: all non-null site prices
across the history rows (`flatMap`). -/
def historyValues (history : List PriceHistoryItem) : List ℚ :=
  (history.map siteValues).flatten

/-- The three summary statistics `loadHistory` computes. -/
structure Stats where
  max : ℚ
  min : ℚ
  avg : ℚ
deriving DecidableEq, Repr

/-- From `bumboo-ui/app/page.tsx` lines 84-88: each statistic is guarded
by `values.length ?`; on a non-empty list `Math.max(...values)`,
`Math.min(...values)` and `reduce(+) / length` are taken, otherwise the
statistic is `0`. -/
def computeStats (values : List ℚ) : Stats :=
  match values with
  | [] => { max := 0, min := 0, avg := 0 }
  | v :: vs =>
    { max := vs.foldl max v
      min := vs.foldl min v
      avg := (v :: vs).sum / ((v :: vs).length : ℚ) }

/-- From `bumboo-ui/app/page.tsx` lines 90-91: the product is updated
with the retained history and the three statistics. -/
def loadHistory (p : Product) (data : List PriceHistoryItem) : Product :=
  let history := retainedHistory data
  let stats := computeStats (historyValues history)
  { p with
    priceHistory := history
    highestPrice := stats.max
    avgPrice := stats.avg
    lowestPrice := stats.min }

/-! ## Helper lemmas -/

theorem runStep_eq (st : RunState) (j : Job) :
    runStep st j = ⟨st.report ++ [jobEntry j], st.batch ++ jobObs j⟩ := by
  cases h : (runJob j).1 <;> simp [runStep, jobEntry, jobObs, h]

theorem foldl_runStep (jobs : List Job) (st : RunState) :
    jobs.foldl runStep st
      = ⟨st.report ++ jobs.map jobEntry,
         st.batch ++ (jobs.map jobObs).flatten⟩ := by
  induction jobs generalizing st with
  | nil => simp
  | cons j rest ih => simp [runStep_eq, ih]

theorem runAll_eq (jobs : List Job) :
    runAll jobs = ⟨jobs.map jobEntry, (jobs.map jobObs).flatten⟩ := by
  simp [runAll, foldl_runStep]

theorem route_remote_all_or_nothing (cfg : SinkConfig)
    (batch : List ProductObservation) :
    (route cfg batch).remote = none ∨ (route cfg batch).remote = some batch := by
  rcases cfg with ⟨hc, sk, ld, rf⟩
  cases hc <;> cases sk <;> cases rf <;> simp [route]

theorem route_local_all_or_nothing (cfg : SinkConfig)
    (batch : List ProductObservation) :
    (route cfg batch).localDoc = none ∨ (route cfg batch).localDoc = some batch := by
  rcases cfg with ⟨hc, sk, ld, rf⟩
  cases hc <;> cases sk <;> cases ld <;> cases rf <;> simp [route]

/-! ## Claim theorems -/

/-- C1: the remote persistence schema written by the core — the
observation-facing columns of `tissue_prices` as declared in
`sql/schema.sql`, the sink-assigned `id` aside — has exactly the shape
the spec promises: brand and site as non-null strings capped at 200
characters, description and source_url as non-null text, size and ply as
nullable 200-char strings, price and total_rating nullable numeric,
total_reviews nullable integer, metadata an open key/value document, and
collected_at a timestamp defaulting to the write time when absent. -/
theorem C1_remote_schema_shape :
    specRemoteSchemaOk (tissue_prices.filter (fun c => !(c.name == "id"))) = true := by
  decide

/-- C8: encoding a `ProductObservation` into the remote-schema row shape
and decoding the row back yields the original observation in every
field, absent optional fields included (lossless round-trip). -/
theorem C8_roundtrip (o : ProductObservation) : decodeRow (encodeRow o) = o := rfl

/-- C9: in the ProductDetails component, for every product history and
every selected date range, `filteredPriceData` equals the untouched
price history — the filter predicate returns true in every branch, so
the date-range buttons never change the charted or tabled data. -/
theorem C9_filter_is_identity (dr : DateRange) (hist : List PriceHistoryItem) :
    filteredPriceData dr hist = hist := by
  cases dr <;> simp [filteredPriceData]

/-- C4: persistence is append-only — a remote write appends the batch
after the existing rows, leaves every prior row in place (the store is a
prefix of the result), grows the store by exactly the batch size, and
never merges or deduplicates against prior rows sharing a natural key:
the number of rows carrying any given (brand, description, site) key is
the old count plus the count inside the batch. -/
theorem C4_append_only (store batch : List ProductObservation)
    (k : String × String × String) :
    remoteWrite store batch = store ++ batch ∧
    store <+: remoteWrite store batch ∧
    (remoteWrite store batch).length = store.length + batch.length ∧
    (remoteWrite store batch).countP (fun o => decide (natKey o = k))
      = store.countP (fun o => decide (natKey o = k))
        + batch.countP (fun o => decide (natKey o = k)) := by
  refine ⟨rfl, ⟨batch, rfl⟩, ?_, ?_⟩ <;> simp [remoteWrite]

/-- C5: sink routing follows the configured flags exactly — with no
remote credentials the run writes only to LocalSink and the local
document holds the full batch of successful observations; with valid
credentials, remote writing enabled, the local-dump flag set and a
healthy remote write, RemoteSink and LocalSink receive identical batch
content. -/
theorem C5_routing_flags (jobs : List Job) (skip dump rf : Bool) :
    (fullRun jobs ⟨false, skip, dump, rf⟩).sink
      = ⟨none, some ((jobs.map jobObs).flatten), []⟩ ∧
    (fullRun jobs ⟨true, false, true, false⟩).sink
      = ⟨some ((jobs.map jobObs).flatten),
         some ((jobs.map jobObs).flatten), []⟩ := by
  constructor <;> simp [fullRun, route, runAll_eq]

/-- C2: when the RemoteSink write fails at runtime, the router writes
the entire batch of successful observations to LocalSink and records the
remote failure as a warning; moreover no batch is ever split partially
remote / partially local — each sink receives the whole batch or nothing. -/
theorem C2_remote_failure_fallback (jobs : List Job) (dump : Bool) :
    (fullRun jobs ⟨true, false, dump, true⟩).sink.localDoc
      = some ((jobs.map jobObs).flatten) ∧
    (fullRun jobs ⟨true, false, dump, true⟩).sink.remote = none ∧
    (fullRun jobs ⟨true, false, dump, true⟩).sink.warnings = ["SinkWriteFailed"] ∧
    (∀ cfg batch, (route cfg batch).remote = none
        ∨ (route cfg batch).remote = some batch) ∧
    (∀ cfg batch, (route cfg batch).localDoc = none
        ∨ (route cfg batch).localDoc = some batch) := by
  refine ⟨?_, ?_, ?_, route_remote_all_or_nothing, route_local_all_or_nothing⟩ <;>
    simp [fullRun, route, runAll_eq]

/-- C3: one job never aborts the run — for any job placed anywhere in
the job list, the report still carries one entry per job in order (the
surrounding jobs are all attempted and recorded whatever that job did),
the final batch still collects the observations of every successful job
around it, and the sink write still proceeds on that batch. -/
theorem C3_failure_isolation (pre post : List Job) (j : Job) (cfg : SinkConfig) :
    (runAll (pre ++ j :: post)).report
      = pre.map jobEntry ++ jobEntry j :: post.map jobEntry ∧
    (runAll (pre ++ j :: post)).batch
      = (pre.map jobObs).flatten ++ (jobObs j ++ (post.map jobObs).flatten) ∧
    (runAll (pre ++ j :: post)).report.length = pre.length + 1 + post.length ∧
    fullRun (pre ++ j :: post) cfg
      = ⟨(runAll (pre ++ j :: post)).report,
         route cfg ((runAll (pre ++ j :: post)).batch)⟩ := by
  refine ⟨?_, ?_, ?_, rfl⟩
  · simp [runAll_eq]
  · simp [runAll_eq]
  · simp only [runAll_eq, List.map_append, List.map_cons, List.length_append,
      List.length_map, List.length_cons]
    omega

theorem mem_build_missing (reg : List (String × Job)) (requested : List String)
    (x : String) :
    x ∈ requested.filter (fun i => !(reg.any (fun p => p.1 == i)))
      ↔ (x ∈ requested ∧ ∀ p ∈ reg, p.1 ≠ x) := by
  simp [List.mem_filter, List.any_eq_true]

/-- C6: when at least one requested identifier is not registered, the
run fails before any job executes — `runRequest` yields an `UnknownJob`
error instead of a report, and the error lists exactly the unresolved
identifiers (every requested id with no registration, so validation is
exhaustive, not fail-on-first). -/
theorem C6_unknown_job_exhaustive (reg : List (String × Job))
    (requested : List String) (cfg : SinkConfig) (i : String)
    (hi : i ∈ requested) (hmiss : ∀ p ∈ reg, p.1 ≠ i) :
    ∃ missing, runRequest reg requested cfg = .error missing ∧
      ∀ x, x ∈ missing ↔ (x ∈ requested ∧ ∀ p ∈ reg, p.1 ≠ x) := by
  refine ⟨requested.filter (fun i2 => !(reg.any (fun p => p.1 == i2))), ?_, ?_⟩
  · have hmem : i ∈ requested.filter (fun i2 => !(reg.any (fun p => p.1 == i2))) :=
      (mem_build_missing reg requested i).2 ⟨hi, hmiss⟩
    have hne : (requested.filter (fun i2 => !(reg.any (fun p => p.1 == i2)))).isEmpty
        = false := by
      rcases hfe : requested.filter (fun i2 => !(reg.any (fun p => p.1 == i2))) with
        _ | ⟨y, ys⟩
      · rw [hfe] at hmem; simp at hmem
      · simp
    simp [runRequest, build, hne]
  · intro x
    exact mem_build_missing reg requested x

theorem runAttempts_count_le
    (f : Nat → Except ErrorKind (List ProductObservation)) (a fuel : Nat) :
    (runAttempts f a fuel).2 ≤ a + fuel + 1 := by
  induction fuel generalizing a with
  | zero =>
    simp only [runAttempts]
    cases f a with
    | ok obs => simp
    | error e => cases e <;> simp
  | succ n ih =>
    simp only [runAttempts]
    cases hfa : f a with
    | ok obs => simp
    | error e =>
      cases e
      · have h := ih (a + 1)
        simp only []
        omega
      · simp
      · simp
      · simp

/-- C7: the Runner retries a transient NetworkError a bounded number of
times — the attempt count never exceeds `maxRetries + 1` — with a
strictly increasing backoff schedule, and never retries a job whose
first fetch raised ParseError or ValidationError: such a job is recorded
failed after exactly one attempt. -/
theorem C7_retry_policy (j : Job) :
    (runJob j).2 ≤ maxRetries + 1 ∧
    (j.fetch 0 = .error .ParseError →
       runJob j = (.failed .ParseError, 1)) ∧
    (j.fetch 0 = .error .ValidationError →
       runJob j = (.failed .ValidationError, 1)) ∧
    StrictMono backoffDelay := by
  refine ⟨?_, ?_, ?_, ?_⟩
  · simpa [runJob] using runAttempts_count_le j.fetch 0 maxRetries
  · intro h
    simp [runJob, runAttempts, maxRetries, h]
  · intro h
    simp [runJob, runAttempts, maxRetries, h]
  · exact strictMono_nat_of_lt_succ (fun n => by
      simpa [backoffDelay] using Nat.pow_lt_pow_succ (by norm_num))

/-- Witness for C7 at two concrete jobs: a job whose extractor raises
ParseError is failed after one attempt, likewise for ValidationError. -/
theorem C7_retry_policy_witness :
    runJob ⟨"job-a", fun _ => .error .ParseError⟩
      = (.failed .ParseError, 1) ∧
    runJob ⟨"job-b", fun _ => .error .ValidationError⟩
      = (.failed .ValidationError, 1) :=
  ⟨(C7_retry_policy ⟨"job-a", fun _ => .error .ParseError⟩).2.1 rfl,
   (C7_retry_policy ⟨"job-b", fun _ => .error .ValidationError⟩).2.2.1 rfl⟩

theorem foldl_max_mem (v : ℚ) (vs : List ℚ) : vs.foldl max v ∈ v :: vs := by
  induction vs generalizing v with
  | nil => simp
  | cons w ws ih =>
    have h := ih (max v w)
    simp only [List.foldl_cons]
    rcases List.mem_cons.1 h with h1 | h1
    · rcases max_choice v w with hm | hm
      · rw [h1, hm]; exact List.mem_cons_self v (w :: ws)
      · rw [h1, hm]
        exact List.mem_cons_of_mem v (List.mem_cons_self w ws)
    · exact List.mem_cons_of_mem v (List.mem_cons_of_mem w h1)

theorem le_foldl_max (v : ℚ) (vs : List ℚ) :
    ∀ x ∈ v :: vs, x ≤ vs.foldl max v := by
  induction vs generalizing v with
  | nil =>
    intro x hx
    simp only [List.mem_singleton] at hx
    simp [hx]
  | cons w ws ih =>
    intro x hx
    simp only [List.foldl_cons]
    have htop : max v w ≤ ws.foldl max (max v w) :=
      ih (max v w) (max v w) (List.mem_cons_self _ _)
    rcases List.mem_cons.1 hx with rfl | h1
    · exact le_trans (le_max_left _ _) htop
    · rcases List.mem_cons.1 h1 with rfl | h2
      · exact le_trans (le_max_right _ _) htop
      · exact ih (max v w) x (List.mem_cons_of_mem _ h2)

theorem foldl_min_mem (v : ℚ) (vs : List ℚ) : vs.foldl min v ∈ v :: vs := by
  induction vs generalizing v with
  | nil => simp
  | cons w ws ih =>
    have h := ih (min v w)
    simp only [List.foldl_cons]
    rcases List.mem_cons.1 h with h1 | h1
    · rcases min_choice v w with hm | hm
      · rw [h1, hm]; exact List.mem_cons_self v (w :: ws)
      · rw [h1, hm]
        exact List.mem_cons_of_mem v (List.mem_cons_self w ws)
    · exact List.mem_cons_of_mem v (List.mem_cons_of_mem w h1)

theorem foldl_min_le (v : ℚ) (vs : List ℚ) :
    ∀ x ∈ v :: vs, vs.foldl min v ≤ x := by
  induction vs generalizing v with
  | nil =>
    intro x hx
    simp only [List.mem_singleton] at hx
    simp [hx]
  | cons w ws ih =>
    intro x hx
    simp only [List.foldl_cons]
    have htop : ws.foldl min (min v w) ≤ min v w :=
      ih (min v w) (min v w) (List.mem_cons_self _ _)
    rcases List.mem_cons.1 hx with rfl | h1
    · exact le_trans htop (min_le_left _ _)
    · rcases List.mem_cons.1 h1 with rfl | h2
      · exact le_trans htop (min_le_right _ _)
      · exact ih (min v w) x (List.mem_cons_of_mem _ h2)

theorem computeStats_spec (values : List ℚ) (hne : values ≠ []) :
    (computeStats values).max ∈ values ∧
    (∀ x ∈ values, x ≤ (computeStats values).max) ∧
    (computeStats values).min ∈ values ∧
    (∀ x ∈ values, (computeStats values).min ≤ x) ∧
    (computeStats values).avg = values.sum / (values.length : ℚ) := by
  cases values with
  | nil => exact absurd rfl hne
  | cons v vs =>
    exact ⟨foldl_max_mem v vs, le_foldl_max v vs,
      foldl_min_mem v vs, foldl_min_le v vs, rfl⟩

/-- C10: the price-history loader drops exactly the rows in which all
three site prices are null, sets highestPrice / lowestPrice / avgPrice
to the maximum, minimum and arithmetic mean of all non-null site prices
across the retained rows, and yields exactly 0 for all three statistics
when no non-null price exists. -/
theorem C10_load_history_stats (p : Product) (data : List PriceHistoryItem) :
    (loadHistory p data).priceHistory
      = data.filter (fun h =>
          h.fairprice.isSome || h.coldStorage.isSome || h.redmart.isSome) ∧
    (∀ h ∈ (loadHistory p data).priceHistory,
        h.fairprice.isSome ∨ h.coldStorage.isSome ∨ h.redmart.isSome) ∧
    (historyValues (retainedHistory data) = [] →
        (loadHistory p data).highestPrice = 0 ∧
        (loadHistory p data).lowestPrice = 0 ∧
        (loadHistory p data).avgPrice = 0) ∧
    (historyValues (retainedHistory data) ≠ [] →
        (loadHistory p data).highestPrice ∈ historyValues (retainedHistory data) ∧
        (∀ v ∈ historyValues (retainedHistory data),
            v ≤ (loadHistory p data).highestPrice) ∧
        (loadHistory p data).lowestPrice ∈ historyValues (retainedHistory data) ∧
        (∀ v ∈ historyValues (retainedHistory data),
            (loadHistory p data).lowestPrice ≤ v) ∧
        (loadHistory p data).avgPrice
          = (historyValues (retainedHistory data)).sum
              / ((historyValues (retainedHistory data)).length : ℚ)) := by
  refine ⟨rfl, ?_, ?_, ?_⟩
  · intro h hmem
    have := List.of_mem_filter hmem
    simp at this
    tauto
  · intro he
    simp [loadHistory, he, computeStats]
  · intro hne
    have hs := computeStats_spec (historyValues (retainedHistory data)) hne
    exact ⟨hs.1, hs.2.1, hs.2.2.1, hs.2.2.2.1, hs.2.2.2.2⟩

/-- Witness for C10 at concrete data: one row with prices 2 and 4, one
all-null row; the retained values are [2, 4], so the highest price is a
member of the value list and the average is the mean. -/
theorem C10_load_history_stats_witness :
    (loadHistory ⟨"p", [], 0, 0, 0⟩
        [⟨"d1", some 2, none, some 4, none⟩,
         ⟨"d2", none, none, none, none⟩]).highestPrice
      ∈ historyValues (retainedHistory
          [⟨"d1", some 2, none, some 4, none⟩,
           ⟨"d2", none, none, none, none⟩]) ∧
    (loadHistory ⟨"p", [], 0, 0, 0⟩
        [⟨"d1", some 2, none, some 4, none⟩,
         ⟨"d2", none, none, none, none⟩]).avgPrice
      = (historyValues (retainedHistory
            [⟨"d1", some 2, none, some 4, none⟩,
             ⟨"d2", none, none, none, none⟩])).sum
          / ((historyValues (retainedHistory
              [⟨"d1", some 2, none, some 4, none⟩,
               ⟨"d2", none, none, none, none⟩])).length : ℚ) := by
  obtain ⟨-, -, -, h4⟩ := C10_load_history_stats (⟨"p", [], 0, 0, 0⟩ : Product)
    [⟨"d1", some 2, none, some 4, none⟩, ⟨"d2", none, none, none, none⟩]
  have h := h4 (by simp [historyValues, retainedHistory, siteValues])
  exact ⟨h.1, h.2.2.2.2⟩

/-- Witness for C6 at a concrete request: against an empty registry the
single requested id "ghost-job" is unresolved, so the run aborts with an
UnknownJob error listing exactly the unresolved identifiers. -/
theorem C6_unknown_job_exhaustive_witness :
    ∃ missing, runRequest [] ["ghost-job"] ⟨false, false, false, false⟩
        = .error missing ∧
      ∀ x, x ∈ missing ↔
        (x ∈ ["ghost-job"] ∧ ∀ p ∈ ([] : List (String × Job)), p.1 ≠ x) :=
  C6_unknown_job_exhaustive [] ["ghost-job"] ⟨false, false, false, false⟩
    "ghost-job" (by simp) (by simp)
